import Mathlib

/-!
Shallow embedding of `ephemera.go` (package ephemera): an ephemeral-container
registry with a dynamic HTTP proxy router.

Modelling choices:
- Go strings are modelled as `List Char` (`Str`).
- The Docker client (`e.docker`, the runtime adapter) is injected as an explicit
  `Adapter` value of response functions; the calls `StopContainer` /
  `RemoveContainer` whose results the Go code ignores are recorded in an
  `AdapterCall` trace instead.
- The shared map `e.containers` is an association list with map semantics
  (lookup takes the first binding; delete removes every binding of the key,
  matching Go map delete since keys are unique in reachable states).
- `log.Fatal` (process abort) and a nil-pointer dereference are explicit
  outcome constructors, since neither returns control to the caller.
- `InspectContainer` returns `(info, err)` in Go and the code discards `err`
  and dereferences `info`; the adapter therefore exposes it as
  `Option ContainerInfo`, `none` standing for the error case where `info`
  is nil.
- Durations (`time.Duration`) are `Nat`; `go`-routine scheduling is modelled
  by returning the scheduled work (`waitKill` pairs the wait duration with
  the effect that fires afterwards).
-/

/-- Go strings / URL paths, modelled as character lists. -/
abbrev Str := List Char

/-- The network section of a Docker inspect result. -/
structure NetworkSettings where
  IPAddress : Str
deriving DecidableEq

/-- Result of `InspectContainer` when the returned pointer is non-nil. -/
structure ContainerInfo where
  networkSettings : NetworkSettings
deriving DecidableEq

/-- `dockerclient.ContainerConfig`, restricted to the one field the code sets. -/
structure ContainerConfig where
  Image : Str
deriving DecidableEq

/-- The forwarding capability built in `newHandler`:
`http.StripPrefix("/demo/"+c.Name, httputil.NewSingleHostReverseProxy(u))`.
It holds the path segment to strip and the backing URL to forward to. -/
inductive ProxyTarget where
  | single (pre : Str) (targetURL : Str)
deriving DecidableEq

/-- `Container` struct of `ephemera.go` (the back-reference `e` to the owning
`Ephemera` is passed explicitly to each method instead). -/
structure Container where
  Name : Str
  ID : Str
  Image : Str
  IP : Str
  Proxy : Option ProxyTarget
  Started : Bool
  StartedAt : Nat
  TTL : Nat
  Config : ContainerConfig
deriving DecidableEq

/-- `Ephemera` struct: the registry state. The `docker` field (runtime
adapter) and `handler` are not data; the adapter is an explicit argument. -/
structure Ephemera where
  ttl : Nat
  image : Str
  containers : List (Str × Container)
deriving DecidableEq

/-- One call issued to the runtime adapter (Docker client). -/
inductive AdapterCall where
  | create (cfg : ContainerConfig) (name : Str)
  | startC (id : Str)
  | inspect (id : Str)
  | stop (id : Str) (timeout : Nat)
  | remove (id : Str) (force removeVolumes : Bool)
deriving DecidableEq

/-- Responses of the runtime adapter for the calls whose results the code
reads. `inspectContainer` models the Go pair `(info, err)` with the error
discarded: `none` is the case where `info` is a nil pointer. -/
structure Adapter where
  createContainer : ContainerConfig → Str → Except Str Str
  startContainer : Str → Except Str Unit
  inspectContainer : Str → Option ContainerInfo

/-- Go map read `e.containers[id]`: first binding of the key, if any. -/
def lookupC : List (Str × Container) → Str → Option Container
  | [], _ => none
  | (k, c) :: rest, n => if k = n then some c else lookupC rest n

/-- Go map write `e.containers[n] = c` on an assoc list: replace in place. -/
def updateC (l : List (Str × Container)) (n : Str) (c : Container) :
    List (Str × Container) :=
  l.map (fun p => if p.1 = n then (n, c) else p)

/-- The adapter calls `Kill` makes: `StopContainer(c.ID, 5)` then
`RemoveContainer(c.ID, true, true)` (both results ignored by the code). -/
def killCalls (c : Container) : List AdapterCall :=
  [AdapterCall.stop c.ID 5, AdapterCall.remove c.ID true true]

/-- `Container.Kill`: under the registry lock, stop and remove the backing
container through the adapter, then `delete(e.containers, c.Name)`.
There is no already-killed check in the code. -/
def Container.Kill (e : Ephemera) (c : Container) :
    Ephemera × List AdapterCall :=
  ({ e with containers := e.containers.filter (fun p => p.1 ≠ c.Name) },
   killCalls c)

/-- `Container.WaitKill`: block for the TTL duration, then `Kill`.
Modelled as the pair (wait duration, effect after the wait). -/
def Container.WaitKill (e : Ephemera) (c : Container) :
    Nat × (Ephemera × List AdapterCall) :=
  (c.TTL, Container.Kill e c)

/-- Possible outcomes of `Container.Start`. `fatal` is `log.Fatal` (the whole
process aborts; control never returns). `nilDeref` is the nil-pointer panic
on `info.NetworkSettings` when `InspectContainer` failed and `info` is nil. -/
inductive StartResult where
  | ok (c : Container)
  | fatal (err : Str)
  | nilDeref
deriving DecidableEq

/-- `containerPrefix + "-"`: containers are named `ephemera-<uuid>`. -/
def containerNamePre : Str := "ephemera-".data

/-- `Container.Start`: no-op if already started; create the container (fatal
on error), start it (fatal on error), sleep 250ms, inspect it discarding the
error, dereference the result to record the IP, set ID / Started / StartedAt. -/
def Container.Start (a : Adapter) (now : Nat) (c : Container) : StartResult :=
  if c.Started then .ok c
  else
    match a.createContainer c.Config (containerNamePre ++ c.Name) with
    | .error err => .fatal err
    | .ok containerId =>
      match a.startContainer containerId with
      | .error err => .fatal err
      | .ok _ =>
        match a.inspectContainer containerId with
        | none => .nilDeref
        | some info =>
          .ok { c with IP := info.networkSettings.IPAddress,
                       ID := containerId,
                       Started := true,
                       StartedAt := now }

/-- `Ephemera.KillAll` body: `for _, c := range e.containers { c.Kill() }`,
iterating the entries present at call time. -/
def killAllGo : Ephemera → List (Str × Container) →
    Ephemera × List AdapterCall
  | e, [] => (e, [])
  | e, p :: rest =>
    let r := Container.Kill e p.2
    let r2 := killAllGo r.1 rest
    (r2.1, r.2 ++ r2.2)

/-- `Ephemera.KillAll`: kill every container still alive. -/
def Ephemera.KillAll (e : Ephemera) : Ephemera × List AdapterCall :=
  killAllGo e e.containers

/-- `Ephemera.NewContainer`: under the lock, build a container with a fresh
uuid name (the uuid generator is an opaque injected capability, so the fresh
name is a parameter), Started=false, no IP, no proxy, and insert it into the
map. The operation is a total function: it cannot fail. -/
def Ephemera.NewContainer (e : Ephemera) (freshName : Str) (img : Str)
    (ttl : Nat) : Ephemera × Container :=
  let c : Container :=
    { Name := freshName, ID := [], Image := img, IP := [],
      Proxy := none, Started := false, StartedAt := 0, TTL := ttl,
      Config := { Image := img } }
  ({ e with containers := (freshName, c) :: e.containers }, c)

/-- Outcome of one request to the proxy endpoint. `unknownIdLogged` is the
fall-through branch of `proxyHandler`: the id is not in the map, the handler
logs and returns having written nothing, so net/http sends an empty 200. -/
inductive ProxyOutcome where
  | forward (url : Str) (strippedPath : Str)
  | notFoundStrip
  | nilPanic
  | unknownIdLogged
deriving DecidableEq

/-- `strings.TrimPrefix` semantics used by `http.StripPrefix`: strip the
leading segment if present, otherwise report failure (404). -/
def stripPre : Str → Str → Option Str
  | [], p => some p
  | _ :: _, [] => none
  | a :: pr, b :: p => if a = b then stripPre pr p else none

/-- `http.StripPrefix(pre, proxy)` serving a request path: forward the
stripped path to the backing URL, or reply 404 when the prefix is absent. -/
def serveProxy : ProxyTarget → Str → ProxyOutcome
  | ProxyTarget.single pre url, path =>
    match stripPre pre path with
    | some rest => .forward url rest
    | none => .notFoundStrip

/-- `Ephemera.proxyHandler`: look the mux id up in the map; if present,
`c.Proxy.ServeHTTP(w, r)` (a nil-pointer panic when Proxy is unset); if
absent, log the unknown id and return without writing a response. -/
def Ephemera.proxyHandler (e : Ephemera) (id : Str) (reqPath : Str) :
    ProxyOutcome :=
  match lookupC e.containers id with
  | some c =>
    match c.Proxy with
    | some pt => serveProxy pt reqPath
    | none => .nilPanic
  | none => .unknownIdLogged

/-- HTTP status the proxy endpoint answers with, when it answers at all:
`forward` delegates the response to the backing process, `nilPanic` crashes,
and the unknown-id fall-through writes nothing, which net/http turns into an
empty 200. -/
def statusOf : ProxyOutcome → Option Nat
  | .forward _ _ => none
  | .notFoundStrip => some 404
  | .nilPanic => none
  | .unknownIdLogged => some 200

/-- Outcome of one request to `/demo/new`. `processAborted` is `log.Fatal`
inside `Start`: the process dies and no response is ever written. -/
inductive NewOutcome where
  | redirect (status : Nat) (location : Str)
  | body (s : Str)
  | processAborted (err : Str)
  | panicked
deriving DecidableEq

/-- Whether any HTTP response at all reaches the caller of `/demo/new`. -/
def isResponse : NewOutcome → Bool
  | .redirect _ _ => true
  | .body _ => true
  | .processAborted _ => false
  | .panicked => false

/-- The path segment prefixed to container names: routes live at /demo/id. -/
def demoPre : Str := "/demo/".data

/-- The backing URL built in `newHandler`: `http://<ip>:8080`. -/
def proxyURL (ip : Str) : Str :=
  "http://".data ++ ip ++ ":8080".data

/-- Result of `Ephemera.newHandler`: the registry state afterwards, the HTTP
outcome, and the expiry task spawned with `go c.WaitKill()` (none when the
process aborted before reaching that line). -/
structure NewResult where
  state : Ephemera
  outcome : NewOutcome
  scheduledExpiry : Option Container

/-- `Ephemera.newHandler`: create a container from the configured image and
ttl, start it (the map entry is a pointer in Go, so the started fields and
the proxy are visible through the map), spawn the TTL task, build the
strip-and-forward proxy, and answer with a 307 redirect to /demo/name unless
the query flag redirect=0 asked for the bare name in the body. -/
def Ephemera.newHandler (a : Adapter) (now : Nat) (e : Ephemera)
    (freshName : Str) (redirectParam : Str) : NewResult :=
  let e1 := (Ephemera.NewContainer e freshName e.image e.ttl).1
  let c := (Ephemera.NewContainer e freshName e.image e.ttl).2
  match Container.Start a now c with
  | .fatal err =>
      { state := e1, outcome := .processAborted err, scheduledExpiry := none }
  | .nilDeref =>
      { state := e1, outcome := .panicked, scheduledExpiry := none }
  | .ok c1 =>
    let c2 := { c1 with
      Proxy := some (ProxyTarget.single (demoPre ++ c1.Name)
                      (proxyURL c1.IP)) }
    let e2 := { e1 with containers := updateC e1.containers c2.Name c2 }
    { state := e2,
      scheduledExpiry := some c2,
      outcome :=
        if redirectParam ≠ "0".data then
          .redirect 307 (demoPre ++ c.Name)
        else
          .body c.Name }

/-! ## Concrete fixtures used by counterexamples and witnesses -/

/-- A registry with no containers, image img, ttl 100. -/
def emptyE : Ephemera :=
  { ttl := 100, image := "img".data, containers := [] }

/-- A started container as it looks after a successful `newHandler` run. -/
def cRun : Container :=
  { Name := "n".data, ID := "cid".data, Image := "img".data,
    IP := "10.0.0.2".data,
    Proxy := some (ProxyTarget.single (demoPre ++ "n".data)
                    (proxyURL "10.0.0.2".data)),
    Started := true, StartedAt := 0, TTL := 100,
    Config := { Image := "img".data } }

/-- A registry holding the single running container `cRun`. -/
def eRun : Ephemera :=
  { ttl := 100, image := "img".data, containers := [("n".data, cRun)] }

/-- A registry state reachable by one `NewContainer` call on `emptyE`:
it holds one Pending container (Started=false, Proxy unset). -/
def pendingE : Ephemera :=
  (Ephemera.NewContainer emptyE "p".data "img".data 100).1

/-- An adapter whose create call fails. -/
def failCreateAdapter : Adapter :=
  { createContainer := fun _ _ => .error "boom".data,
    startContainer := fun _ => .ok (),
    inspectContainer := fun _ => some { networkSettings := { IPAddress := "10.0.0.2".data } } }

/-- An adapter for which everything succeeds; inspect reports 10.0.0.2. -/
def okAdapter : Adapter :=
  { createContainer := fun _ _ => .ok "cid".data,
    startContainer := fun _ => .ok (),
    inspectContainer := fun _ => some { networkSettings := { IPAddress := "10.0.0.2".data } } }

/-- An adapter whose inspect call fails (returns a nil info pointer). -/
def failInspectAdapter : Adapter :=
  { createContainer := fun _ _ => .ok "cid".data,
    startContainer := fun _ => .ok (),
    inspectContainer := fun _ => none }

/-! ## Helper lemmas -/

/-- Deleting a key from the map makes it unresolvable. -/
theorem lookupC_filter_ne (l : List (Str × Container)) (n : Str) :
    lookupC (l.filter (fun p => p.1 ≠ n)) n = none := by
  induction l with
  | nil => rfl
  | cons h t ih =>
    by_cases hk : h.1 = n
    · simpa [List.filter_cons, hk] using ih
    · simpa [List.filter_cons, hk, lookupC] using ih

/-- Deleting an already-deleted key changes nothing. -/
theorem filter_ne_idem (l : List (Str × Container)) (n : Str) :
    (l.filter (fun p => p.1 ≠ n)).filter (fun p => p.1 ≠ n)
      = l.filter (fun p => p.1 ≠ n) := by
  induction l with
  | nil => rfl
  | cons h t ih =>
    by_cases hk : h.1 = n
    · simp [List.filter_cons, hk, ih]
    · simp [List.filter_cons, hk, ih]

/-! ## Claim C1 -/

/-- Claim C1 counterexample: a second `Kill` of the same container, after the
first has completed, is not absorbed as a no-op: it issues the stop and
remove calls to the adapter again, so two stop+remove sequences reach the
adapter for one instance. -/
theorem kill_twice_not_noop :
    (Container.Kill (Container.Kill eRun cRun).1 cRun).2 =
      [AdapterCall.stop "cid".data 5,
       AdapterCall.remove "cid".data true true] ∧
    (Container.Kill (Container.Kill eRun cRun).1 cRun).2 ≠ [] := by
  constructor
  · rfl
  · decide

/-- Claim C1, amended: teardown of the registry entry occurs at most once —
a second `Kill` finds the map already lacking the name and leaves the state
unchanged — but the second invocation re-issues the stop and remove calls to
the adapter (their errors are ignored by the code), so it is not a no-op at
the adapter boundary. -/
theorem kill_second_time (e : Ephemera) (c : Container) :
    (Container.Kill (Container.Kill e c).1 c).1 = (Container.Kill e c).1 ∧
    lookupC (Container.Kill e c).1.containers c.Name = none ∧
    (Container.Kill (Container.Kill e c).1 c).2 = killCalls c := by
  refine ⟨?_, lookupC_filter_ne e.containers c.Name, rfl⟩
  show ({ (Container.Kill e c).1 with
            containers := (Container.Kill e c).1.containers.filter
              (fun p => p.1 ≠ c.Name) },
        killCalls c).1 = (Container.Kill e c).1
  simp [Container.Kill, filter_ne_idem]

/-! ## Claim C2 -/

/-- Claim C2 counterexample: when the adapter reports a creation failure,
`Start` calls `log.Fatal`, which aborts the whole process. The creation
handler never regains control, so no caller-visible failure response is
produced — the failure is not propagated synchronously to the caller. -/
theorem start_failure_no_response :
    (Ephemera.newHandler failCreateAdapter 0 emptyE "n".data []).outcome
      = NewOutcome.processAborted "boom".data ∧
    isResponse
      (Ephemera.newHandler failCreateAdapter 0 emptyE "n".data []).outcome
      = false := by
  constructor
  · rfl
  · rfl

/-- Claim C2, amended: when the adapter reports a creation or start failure,
`Start` does not return to its caller at all — the process aborts via
`log.Fatal`, so no response (success or failure) reaches the requesting
caller, and the half-initialized Pending instance is still in the mapping at
the moment of the abort. -/
theorem start_failure_aborts_process (a : Adapter) (now : Nat) (e : Ephemera)
    (n rp err : Str)
    (h : a.createContainer { Image := e.image } (containerNamePre ++ n)
           = .error err ∨
         ∃ cid, a.createContainer { Image := e.image } (containerNamePre ++ n)
           = .ok cid ∧ a.startContainer cid = .error err) :
    (Ephemera.newHandler a now e n rp).outcome
      = NewOutcome.processAborted err ∧
    isResponse (Ephemera.newHandler a now e n rp).outcome = false ∧
    lookupC (Ephemera.newHandler a now e n rp).state.containers n ≠ none := by
  have hstart : Container.Start a now
      (Ephemera.NewContainer e n e.image e.ttl).2 = .fatal err := by
    rcases h with hc | ⟨cid, hc, hs⟩
    · simp [Container.Start, Ephemera.NewContainer, hc]
    · simp [Container.Start, Ephemera.NewContainer, hc, hs]
  refine ⟨?_, ?_, ?_⟩
  · simp [Ephemera.newHandler, hstart]
  · simp [Ephemera.newHandler, hstart, isResponse]
  · simp only [Ephemera.newHandler, hstart]
    simp [Ephemera.NewContainer, lookupC]

/-- Witness for the amended C2 theorem at a concrete failing adapter. -/
theorem start_failure_aborts_process_witness :
    (Ephemera.newHandler failCreateAdapter 0 emptyE "n".data []).outcome
      = NewOutcome.processAborted "boom".data ∧
    isResponse
      (Ephemera.newHandler failCreateAdapter 0 emptyE "n".data []).outcome
      = false ∧
    lookupC (Ephemera.newHandler failCreateAdapter 0 emptyE "n".data
      []).state.containers "n".data ≠ none :=
  start_failure_aborts_process failCreateAdapter 0 emptyE "n".data []
    "boom".data (Or.inl rfl)

/-! ## Claim C3 -/

/-- `serveProxy` always forwards or answers 404; it never produces the
unknown-id fall-through outcome. -/
theorem serveProxy_ne_unknown (pt : ProxyTarget) (path : Str) :
    serveProxy pt path ≠ ProxyOutcome.unknownIdLogged := by
  cases pt with
  | single pre url =>
    unfold serveProxy
    cases h : stripPre pre path <;> simp [h]

/-- Claim C3 counterexample: in the reachable state `pendingE` (one
`NewContainer` call, `Start` not yet run) the instance is present in the
mapping with `Started = false` and no address, yet a proxy request for it is
not treated as not-found: the handler observes it as routable and
dereferences its nil proxy target. This falsifies the claimed
"present and Running" equivalence. -/
theorem pending_instance_routable :
    (lookupC pendingE.containers "p".data).isSome = true ∧
    (lookupC pendingE.containers "p".data).map (fun c => c.Started)
      = some false ∧
    Ephemera.proxyHandler pendingE "p".data "/demo/p".data
      = ProxyOutcome.nilPanic ∧
    Ephemera.proxyHandler pendingE "p".data "/demo/p".data
      ≠ ProxyOutcome.unknownIdLogged := by
  refine ⟨rfl, rfl, rfl, by decide⟩

/-- Claim C3, amended: an instance is observed as routable by the proxy
handler if and only if it is present in the mapping — the handler performs
no Running-state check, so an instance inserted by `NewContainer` is already
observable as routable before `Start` has completed (and is then served
through its nil proxy target). -/
theorem routable_iff_in_map (e : Ephemera) (id path : Str) :
    Ephemera.proxyHandler e id path ≠ ProxyOutcome.unknownIdLogged ↔
    (lookupC e.containers id).isSome = true := by
  unfold Ephemera.proxyHandler
  cases h : lookupC e.containers id with
  | none => simp
  | some c =>
    cases hp : c.Proxy with
    | none => simp [hp]
    | some pt => simp [hp, serveProxy_ne_unknown]

/-! ## Claim C4 -/

/-- Claim C4 counterexample: an identifier absent from the registry is not
answered with a not-found-class response — the handler logs and returns
having written nothing, which net/http turns into an empty 200; and for an
identifier that is still Pending (present in the map, proxy unset) the
handler panics on the nil target rather than answering not-found. -/
theorem proxy_miss_not_notfound :
    Ephemera.proxyHandler emptyE "z".data "/demo/z".data
      = ProxyOutcome.unknownIdLogged ∧
    statusOf (Ephemera.proxyHandler emptyE "z".data "/demo/z".data)
      = some 200 ∧
    Ephemera.proxyHandler pendingE "p".data "/demo/p".data
      = ProxyOutcome.nilPanic := by
  refine ⟨rfl, rfl, rfl⟩

/-- Claim C4, amended: for an identifier absent from the mapping (never
created or already torn down) the handler takes the fall-through branch —
no forward, no panic, no dereference of an absent target — but the response
is an implicit empty 200, not a not-found status; and for an identifier that
is still Pending the handler does reach the nil proxy target and panics. -/
theorem proxy_unknown_id (e : Ephemera) (id path : Str)
    (h : lookupC e.containers id = none) :
    Ephemera.proxyHandler e id path = ProxyOutcome.unknownIdLogged ∧
    statusOf (Ephemera.proxyHandler e id path) = some 200 := by
  unfold Ephemera.proxyHandler
  simp [h, statusOf]

/-- Witness for the amended C4 theorem: a lookup miss on the empty registry. -/
theorem proxy_unknown_id_witness :
    Ephemera.proxyHandler emptyE "q".data "/demo/q".data
      = ProxyOutcome.unknownIdLogged ∧
    statusOf (Ephemera.proxyHandler emptyE "q".data "/demo/q".data)
      = some 200 :=
  proxy_unknown_id emptyE "q".data "/demo/q".data rfl

/-! ## Claim C5 -/

/-- Claim C5: the expiry task waits exactly the instance TTL, then runs
`Kill`; afterwards the identifier is no longer resolvable by a registry
lookup and exactly the stop-then-remove sequence has been issued to the
adapter for the backing container. -/
theorem waitkill_waits_ttl_then_kills (e : Ephemera) (c : Container) :
    (Container.WaitKill e c).1 = c.TTL ∧
    lookupC (Container.WaitKill e c).2.1.containers c.Name = none ∧
    (Container.WaitKill e c).2.2
      = [AdapterCall.stop c.ID 5, AdapterCall.remove c.ID true true] :=
  ⟨rfl, lookupC_filter_ne e.containers c.Name, rfl⟩

/-! ## Claim C6 -/

/-- Concatenation of the per-entry teardown call sequences, in map order:
the trace a run of `Kill` over every entry produces. -/
def concatKillCalls : List (Str × Container) → List AdapterCall
  | [] => []
  | p :: rest => killCalls p.2 ++ concatKillCalls rest

/-- The adapter trace of the `KillAll` loop is the concatenation of each
entry's stop+remove sequence, independent of the evolving registry state. -/
theorem killAllGo_trace (l : List (Str × Container)) :
    ∀ e : Ephemera, (killAllGo e l).2 = concatKillCalls l := by
  induction l with
  | nil => intro e; rfl
  | cons p rest ih =>
    intro e
    simp [killAllGo, concatKillCalls, ih, Container.Kill]

/-- If every entry of the current registry is covered by a name in the work
list, the `KillAll` loop empties the registry. -/
theorem killAllGo_empties (l : List (Str × Container)) :
    ∀ e : Ephemera,
      (∀ p ∈ e.containers, ∃ q ∈ l, p.1 = q.2.Name) →
      (killAllGo e l).1.containers = [] := by
  induction l with
  | nil =>
    intro e hcov
    cases hc : e.containers with
    | nil => simp [killAllGo, hc]
    | cons p rest =>
      exfalso
      rcases hcov p (by rw [hc]; exact List.mem_cons_self p rest) with ⟨q, hq, _⟩
      exact absurd hq (List.not_mem_nil q)
  | cons q rest ih =>
    intro e hcov
    show (killAllGo (Container.Kill e q.2).1 rest).1.containers = []
    apply ih
    intro p hp
    simp only [Container.Kill] at hp
    have hmem := List.mem_filter.mp hp
    have hne : p.1 ≠ q.2.Name := by simpa using hmem.2
    rcases hcov p hmem.1 with ⟨q', hq', heq⟩
    rcases List.mem_cons.mp hq' with h1 | h2
    · exact absurd (h1 ▸ heq) hne
    · exact ⟨q', h2, heq⟩

/-- Claim C6: after `KillAll` returns, the mapping is empty — every instance
present at call time is gone and no longer resolvable — and the adapter
received exactly the per-instance stop+remove sequences (`killCalls`, the
same teardown routine `WaitKill` uses on TTL expiry). The hypothesis is the
registry well-formedness invariant that each entry is keyed by its own
container name, which every insertion in the code maintains. -/
theorem killall_tears_down_everything (e : Ephemera)
    (hwf : ∀ p ∈ e.containers, p.1 = p.2.Name) :
    (Ephemera.KillAll e).1.containers = [] ∧
    (Ephemera.KillAll e).2 = concatKillCalls e.containers ∧
    ∀ p ∈ e.containers,
      lookupC (Ephemera.KillAll e).1.containers p.1 = none := by
  have hempty : (Ephemera.KillAll e).1.containers = [] := by
    apply killAllGo_empties e.containers e
    intro p hp
    exact ⟨p, hp, hwf p hp⟩
  refine ⟨hempty, killAllGo_trace e.containers e, ?_⟩
  intro p hp
  rw [hempty]
  rfl

/-- Witness for the C6 theorem on a registry holding one running container. -/
theorem killall_tears_down_everything_witness :
    (Ephemera.KillAll eRun).1.containers = [] ∧
    (Ephemera.KillAll eRun).2 = concatKillCalls eRun.containers ∧
    ∀ p ∈ eRun.containers,
      lookupC (Ephemera.KillAll eRun).1.containers p.1 = none :=
  killall_tears_down_everything eRun (by decide)

/-! ## Claim C7 -/

/-- A key that the map lookup misses is not the key of any entry. -/
theorem lookupC_none_not_key : ∀ (l : List (Str × Container)) (n : Str),
    lookupC l n = none → ∀ p ∈ l, p.1 ≠ n
  | [], _, _, p, hp => absurd hp (List.not_mem_nil p)
  | (k, c) :: rest, n, h, p, hp => by
    by_cases hk : k = n
    · exfalso; simp [lookupC, hk] at h
    · rcases List.mem_cons.mp hp with h1 | h2
      · rw [h1]; exact hk
      · exact lookupC_none_not_key rest n (by simpa [lookupC, hk] using h) p h2

/-- Claim C7: `NewContainer` builds an instance in the Pending state (not
started, no address, no proxy target, no runtime handle) carrying the given
image and ttl, keyed by the fresh identifier; it inserts it into the mapping
without disturbing any other entry and returns it. The operation is a total
function — it has no failure outcome. The hypothesis is the contract of the
injected uuid capability: the generated identifier is not yet in use. -/
theorem newcontainer_pending_inserted (e : Ephemera) (n img : Str) (ttl : Nat)
    (hfresh : lookupC e.containers n = none) :
    (Ephemera.NewContainer e n img ttl).2.Name = n ∧
    (Ephemera.NewContainer e n img ttl).2.Started = false ∧
    (Ephemera.NewContainer e n img ttl).2.IP = [] ∧
    (Ephemera.NewContainer e n img ttl).2.ID = [] ∧
    (Ephemera.NewContainer e n img ttl).2.Proxy = none ∧
    (Ephemera.NewContainer e n img ttl).2.TTL = ttl ∧
    (Ephemera.NewContainer e n img ttl).2.Image = img ∧
    lookupC (Ephemera.NewContainer e n img ttl).1.containers n
      = some (Ephemera.NewContainer e n img ttl).2 ∧
    (∀ p ∈ e.containers, p.1 ≠ n) ∧
    (∀ k, k ≠ n →
      lookupC (Ephemera.NewContainer e n img ttl).1.containers k
        = lookupC e.containers k) := by
  refine ⟨rfl, rfl, rfl, rfl, rfl, rfl, rfl, ?_,
    lookupC_none_not_key e.containers n hfresh, ?_⟩
  · simp [Ephemera.NewContainer, lookupC]
  · intro k hk
    simp [Ephemera.NewContainer, lookupC, Ne.symm hk]

/-- Witness for the C7 theorem on the empty registry. -/
theorem newcontainer_pending_inserted_witness :
    (Ephemera.NewContainer emptyE "x".data "img".data 50).2.Name = "x".data ∧
    (Ephemera.NewContainer emptyE "x".data "img".data 50).2.Started = false ∧
    (Ephemera.NewContainer emptyE "x".data "img".data 50).2.IP = [] ∧
    (Ephemera.NewContainer emptyE "x".data "img".data 50).2.ID = [] ∧
    (Ephemera.NewContainer emptyE "x".data "img".data 50).2.Proxy = none ∧
    (Ephemera.NewContainer emptyE "x".data "img".data 50).2.TTL = 50 ∧
    (Ephemera.NewContainer emptyE "x".data "img".data 50).2.Image
      = "img".data ∧
    lookupC (Ephemera.NewContainer emptyE "x".data "img".data 50).1.containers
        "x".data
      = some (Ephemera.NewContainer emptyE "x".data "img".data 50).2 ∧
    (∀ p ∈ emptyE.containers, p.1 ≠ "x".data) ∧
    (∀ k, k ≠ "x".data →
      lookupC
          (Ephemera.NewContainer emptyE "x".data "img".data 50).1.containers k
        = lookupC emptyE.containers k) :=
  newcontainer_pending_inserted emptyE "x".data "img".data 50 rfl

/-! ## Claims C8 and C9: helper -/

/-- When the adapter accepts the create and start calls and inspect reports
an address, `Start` on a freshly built Pending container succeeds and records
handle, address and start time. -/
theorem start_ok_of_adapter_ok (a : Adapter) (now : Nat) (img : Str)
    (ttlv : Nat) (n cid : Str) (info : ContainerInfo)
    (hc : a.createContainer { Image := img } (containerNamePre ++ n)
            = .ok cid)
    (hs : a.startContainer cid = .ok ())
    (hi : a.inspectContainer cid = some info) :
    Container.Start a now
        { Name := n, ID := [], Image := img, IP := [], Proxy := none,
          Started := false, StartedAt := 0, TTL := ttlv,
          Config := { Image := img } }
      = StartResult.ok
          { Name := n, ID := cid, Image := img,
            IP := info.networkSettings.IPAddress, Proxy := none,
            Started := true, StartedAt := now, TTL := ttlv,
            Config := { Image := img } } := by
  simp [Container.Start, hc, hs, hi]

/-! ## Claim C8 -/

/-- Claim C8: for a creation request the adapter lets succeed, the response
is selected by the redirect query flag: unless the flag is the string 0 the
handler answers an HTTP 307 temporary redirect to /demo/id; when the flag is
0 it writes the raw identifier as the body. -/
theorem newhandler_response_mode (a : Adapter) (now : Nat) (e : Ephemera)
    (n rp cid : Str) (info : ContainerInfo)
    (hc : a.createContainer { Image := e.image } (containerNamePre ++ n)
            = .ok cid)
    (hs : a.startContainer cid = .ok ())
    (hi : a.inspectContainer cid = some info) :
    (rp ≠ "0".data →
      (Ephemera.newHandler a now e n rp).outcome
        = NewOutcome.redirect 307 (demoPre ++ n)) ∧
    (rp = "0".data →
      (Ephemera.newHandler a now e n rp).outcome = NewOutcome.body n) := by
  constructor
  · intro hne
    simp [Ephemera.newHandler, Ephemera.NewContainer,
      start_ok_of_adapter_ok a now e.image e.ttl n cid info hc hs hi, hne]
  · intro heq
    simp [Ephemera.newHandler, Ephemera.NewContainer,
      start_ok_of_adapter_ok a now e.image e.ttl n cid info hc hs hi, heq]

/-- Witness for the C8 theorem: both response modes at a concrete adapter. -/
theorem newhandler_response_mode_witness :
    (Ephemera.newHandler okAdapter 0 emptyE "n".data []).outcome
      = NewOutcome.redirect 307 (demoPre ++ "n".data) ∧
    (Ephemera.newHandler okAdapter 0 emptyE "n".data "0".data).outcome
      = NewOutcome.body "n".data :=
  ⟨(newhandler_response_mode okAdapter 0 emptyE "n".data [] "cid".data
      { networkSettings := { IPAddress := "10.0.0.2".data } }
      rfl rfl rfl).1 (by decide),
   (newhandler_response_mode okAdapter 0 emptyE "n".data "0".data "cid".data
      { networkSettings := { IPAddress := "10.0.0.2".data } }
      rfl rfl rfl).2 rfl⟩

/-! ## Claim C9 -/

/-- Stripping a leading segment from a path that carries it leaves exactly
the remainder. -/
theorem stripPre_append (pre rest : Str) :
    stripPre pre (pre ++ rest) = some rest := by
  induction pre with
  | nil => rfl
  | cons a t ih => simp [stripPre, ih]

/-- Claim C9: once a creation request has succeeded, a proxy request for
that identifier whose path is /demo/id followed by a remainder is forwarded
to the backing URL http://ip:8080 with the /demo/id segment stripped, so the
backing process sees the normalized remainder path. -/
theorem proxy_forwards_stripped (a : Adapter) (now : Nat) (e : Ephemera)
    (n rp rest cid : Str) (info : ContainerInfo)
    (hc : a.createContainer { Image := e.image } (containerNamePre ++ n)
            = .ok cid)
    (hs : a.startContainer cid = .ok ())
    (hi : a.inspectContainer cid = some info) :
    Ephemera.proxyHandler (Ephemera.newHandler a now e n rp).state n
        ((demoPre ++ n) ++ rest)
      = ProxyOutcome.forward (proxyURL info.networkSettings.IPAddress) rest := by
  simp [Ephemera.newHandler, Ephemera.NewContainer,
    start_ok_of_adapter_ok a now e.image e.ttl n cid info hc hs hi,
    Ephemera.proxyHandler, updateC, lookupC, serveProxy, stripPre_append]
  rw [← List.append_assoc, stripPre_append]

/-- Witness for the C9 theorem: a concrete request below a fresh instance is
forwarded with the prefix stripped. -/
theorem proxy_forwards_stripped_witness :
    Ephemera.proxyHandler
        (Ephemera.newHandler okAdapter 0 emptyE "n".data []).state "n".data
        ((demoPre ++ "n".data) ++ "/x".data)
      = ProxyOutcome.forward (proxyURL "10.0.0.2".data) "/x".data :=
  proxy_forwards_stripped okAdapter 0 emptyE "n".data [] "/x".data "cid".data
    { networkSettings := { IPAddress := "10.0.0.2".data } } rfl rfl rfl

/-! ## Claim C10 -/

/-- A Pending container as returned by `NewContainer` on the empty registry,
used to exercise `Start` directly. -/
def cPend : Container :=
  (Ephemera.NewContainer emptyE "w".data "img".data 100).2

/-- Claim C10: `Start` discards the error of the inspect call (the adapter
signature records the discard: only the possibly-nil info pointer remains)
and unconditionally dereferences the result to record the address. Once the
create and start calls have succeeded, `Start` panics with a nil dereference
exactly when inspect fails, and is total precisely under the precondition
that inspect returns a non-nil container description, in which case the
address from its network settings is recorded. -/
theorem start_deref_inspect (a : Adapter) (now : Nat) (c : Container)
    (cid : Str)
    (hns : c.Started = false)
    (hc : a.createContainer c.Config (containerNamePre ++ c.Name) = .ok cid)
    (hs : a.startContainer cid = .ok ()) :
    (Container.Start a now c = StartResult.nilDeref ↔
      a.inspectContainer cid = none) ∧
    ∀ info, a.inspectContainer cid = some info →
      Container.Start a now c
        = StartResult.ok
            { c with IP := info.networkSettings.IPAddress, ID := cid,
                     Started := true, StartedAt := now } := by
  constructor
  · cases hi : a.inspectContainer cid with
    | none => simp [Container.Start, hns, hc, hs, hi]
    | some info => simp [Container.Start, hns, hc, hs, hi]
  · intro info hi
    simp [Container.Start, hns, hc, hs, hi]

/-- Witness for the C10 theorem: with an adapter whose inspect call fails,
`Start` on a freshly created container ends in the nil dereference. -/
theorem start_deref_inspect_witness :
    Container.Start failInspectAdapter 0 cPend = StartResult.nilDeref :=
  (start_deref_inspect failInspectAdapter 0 cPend "cid".data
    rfl rfl rfl).1.mpr rfl
